import Mathlib

/-!
Shallow embedding of the `python-sharding-boilerplate` repository core:
`core/hashing.py` (`shard_hash`), `core/settings.py` (`DATABASE_SHARDS`,
`SHARD_COUNT`), `core/shard_router.py` (`route_to_shard`), the Django router
(`django_app/routers.py`) and the two web consumers (`fastapi_app/main.py`,
`flask_app/app.py`).

`shard_hash` calls Python's builtin `hash` on `str(key)`.  The semantics of
the builtin are part of the language runtime, so they are embedded here
faithfully from CPython 3.11 (`Python/pyhash.c`): strings hash their PEP 393
canonical byte buffer with SipHash-1-3 keyed by the per-process
`_Py_HashSecret`, which `PYTHONHASHSEED` seeds through the `lcg_urandom`
generator (seed 0 zeroes the secret).  This Lean model was checked value
by value against CPython 3.11.6 for many strings and seeds.

Machine integers are modelled as `Nat` with explicit reduction `% 2 ^ 64`;
Python's signed 64-bit hash result is recovered as an `Int`, and Python's
`%` on `int` (floor modulo, sign of the divisor) is `Int.fmod`, with the
`ZeroDivisionError` raised on a zero divisor made explicit in `Except`.
-/

/-- Errors a straight-line run of the embedded code can raise.  `keyError`
carries the missing dictionary key, as Python's `KeyError` does.
`configurationError` never arises from the code: it is the error class the
design document's resolver contract names, included so that contract can be
stated. -/
inductive PyErr where
  | zeroDivision : PyErr
  | keyError : String → PyErr
  | configurationError : PyErr
deriving DecidableEq

instance {ε α : Type} [DecidableEq ε] [DecidableEq α] : DecidableEq (Except ε α)
  | .error x, .error y =>
    match decEq x y with
    | isTrue h => isTrue (by rw [h])
    | isFalse h => isFalse (by intro hc; cases hc; exact h rfl)
  | .error _, .ok _ => isFalse (by intro h; cases h)
  | .ok _, .error _ => isFalse (by intro h; cases h)
  | .ok x, .ok y =>
    match decEq x y with
    | isTrue h => isTrue (by rw [h])
    | isFalse h => isFalse (by intro hc; cases hc; exact h rfl)

/-- 64-bit truncation, written out as the modulus CPython's `uint64_t`
arithmetic applies implicitly. -/
def mask64 (x : Nat) : Nat := x % 2 ^ 64

/-- CPython's `ROTATE(x, b)` in `pyhash.c`: `((x << b) | (x >> (64 - b)))` in
`uint64_t` arithmetic (operands are kept below `2 ^ 64`). -/
def rotl64 (x b : Nat) : Nat := mask64 (x <<< b) ||| (x >>> (64 - b))

/-- CPython's `HALF_ROUND(a,b,c,d,s,t)` in `pyhash.c`:
`a += b; c += d; b = ROTATE(b,s) ^ a; d = ROTATE(d,t) ^ c; a = ROTATE(a,32)`. -/
def halfRound (a b c d s t : Nat) : Nat × Nat × Nat × Nat :=
  let a := mask64 (a + b)
  let c := mask64 (c + d)
  let b := rotl64 b s ^^^ a
  let d := rotl64 d t ^^^ c
  let a := rotl64 a 32
  (a, b, c, d)

/-- CPython's `SINGLE_ROUND(v0,v1,v2,v3)` in `pyhash.c`:
`HALF_ROUND(v0,v1,v2,v3,13,16); HALF_ROUND(v2,v1,v0,v3,17,21)`. -/
def singleRound : Nat × Nat × Nat × Nat → Nat × Nat × Nat × Nat
  | (v0, v1, v2, v3) =>
    let (v0, v1, v2, v3) := halfRound v0 v1 v2 v3 13 16
    let (v2, v1, v0, v3) := halfRound v2 v1 v0 v3 17 21
    (v0, v1, v2, v3)

/-- Little-endian value of a byte list: the first byte is least
significant.  Used both for full 8-byte blocks and for the shorter tail
(`pyhash.c` assembles the tail bytes into the low end of a zeroed
`uint64_t`). -/
def le64 : List Nat → Nat
  | [] => 0
  | b :: bs => b + 256 * le64 bs

/-- Compression loop plus finalization of `siphash13` in `pyhash.c`: each
8-byte block is absorbed with one round, then the final block `b` (input
length in the top byte, tail bytes below) is absorbed, `v2` is flipped with
`0xff`, three more rounds run, and the four lanes are XOR-folded. -/
def sipBody (len : Nat) : Nat × Nat × Nat × Nat → List Nat → Nat
  | (v0, v1, v2, v3), b0 :: b1 :: b2 :: b3 :: b4 :: b5 :: b6 :: b7 :: rest =>
    let mi := le64 [b0, b1, b2, b3, b4, b5, b6, b7]
    let (v0, v1, v2, v3) := singleRound (v0, v1, v2, v3 ^^^ mi)
    sipBody len (v0 ^^^ mi, v1, v2, v3) rest
  | (v0, v1, v2, v3), tail =>
    let b := mask64 (len <<< 56) ||| le64 tail
    let (v0, v1, v2, v3) := singleRound (v0, v1, v2, v3 ^^^ b)
    let (v0, v1, v2, v3) := singleRound (v0 ^^^ b, v1, v2 ^^^ 0xff, v3)
    let (v0, v1, v2, v3) := singleRound (v0, v1, v2, v3)
    let (v0, v1, v2, v3) := singleRound (v0, v1, v2, v3)
    (v0 ^^^ v1) ^^^ (v2 ^^^ v3)

/-- CPython's `siphash13(k0, k1, src, src_sz)` in `pyhash.c` (CPython 3.11's default
string-hash core), on a byte list. -/
def siphash13 (k0 k1 : Nat) (data : List Nat) : Nat :=
  sipBody data.length
    (k0 ^^^ 0x736f6d6570736575, k1 ^^^ 0x646f72616e646f6d,
     k0 ^^^ 0x6c7967656e657261, k1 ^^^ 0x7465646279746573) data

/-- Reinterpret a 64-bit unsigned value as CPython's signed `Py_hash_t`
(two's complement). -/
def toSigned64 (u : Nat) : Int :=
  if u < 2 ^ 63 then (u : Int) else (u : Int) - 2 ^ 64

/-- CPython's `_Py_HashBytes` in `pyhash.c`: empty input hashes to 0; otherwise the
SipHash value, reinterpreted as signed, with `-1` remapped to `-2` (CPython
reserves `-1` for error returns). -/
def pyHashBytes (k0 k1 : Nat) (data : List Nat) : Int :=
  if data = [] then 0
  else
    let h := toSigned64 (siphash13 k0 k1 data)
    if h = -1 then -2 else h

/-- The PEP 393 canonical buffer of a `str`, as bytes (little-endian host):
1 byte per character if every code point fits (Latin-1 kind), else 2 bytes
(UCS-2 kind), else 4 bytes (UCS-4 kind).  `unicode_hash` feeds exactly this
buffer to `_Py_HashBytes`. -/
def strBytes (s : String) : List Nat :=
  let cps := s.data.map Char.toNat
  if cps.all (· < 2 ^ 8) then cps
  else if cps.all (· < 2 ^ 16) then
    cps.flatMap (fun c => [c % 256, c / 2 ^ 8])
  else
    cps.flatMap (fun c => [c % 256, c / 2 ^ 8 % 256, c / 2 ^ 16 % 256, c / 2 ^ 24 % 256])

/-- CPython's `lcg_urandom` in `bootstrap_hash.c`: the byte stream
`x := x * 214013 + 2531011 (mod 2^32); emit (x >> 16) & 0xff`, used to
expand a nonzero `PYTHONHASHSEED` into the hash secret. -/
def lcgBytes : Nat → Nat → List Nat
  | _, 0 => []
  | x, n + 1 =>
    let x := (x * 214013 + 2531011) % 2 ^ 32
    (x >>> 16) % 256 :: lcgBytes x n

/-- The per-process `_Py_HashSecret` pair `(k0, k1)` determined by
`PYTHONHASHSEED`: seed 0 gives the all-zero secret (randomization
disabled); a nonzero seed is expanded by `lcg_urandom` and the first two
little-endian 64-bit words are the SipHash key. -/
def secretFromSeed (seed : Nat) : Nat × Nat :=
  if seed = 0 then (0, 0)
  else
    let bytes := lcgBytes (seed % 2 ^ 32) 16
    (le64 (bytes.take 8), le64 (bytes.drop 8))

/-- CPython's `hash` on a `str` value, for the process hash secret
`(k0, k1)`. -/
def pyHashStr (secret : Nat × Nat) (s : String) : Int :=
  pyHashBytes secret.1 secret.2 (strBytes s)

/-- The key values the repository's consumers pass to the core: Python
integers (FastAPI's `id: int`, Flask's `payload["id"]`) and strings.
`shard_hash` accepts `Any` and first applies `str`. -/
inductive PyValue where
  | int : Int → PyValue
  | str : String → PyValue
deriving DecidableEq

/-- Python's `str` on these values: decimal text for integers (negative
ones get a leading minus sign, as Lean's `toString` on `Int` also
produces), the string itself for strings. -/
def pyStrOf : PyValue → String
  | .int i => toString i
  | .str s => s

/-- Python's `%` on `int`: floor modulo (the result has the sign of the
divisor), raising `ZeroDivisionError` on a zero divisor.  `Int.fmod` is
Lean's floor modulo. -/
def pyMod (a b : Int) : Except PyErr Int :=
  if b = 0 then .error .zeroDivision else .ok (Int.fmod a b)

/-- Embeds `core/hashing.py`, `shard_hash(key, shard_count)`:
`return hash(str(key)) % shard_count`.  The process hash secret is the
extra parameter the Python runtime supplies implicitly. -/
def shard_hash (secret : Nat × Nat) (key : PyValue) (shard_count : Int) :
    Except PyErr Int :=
  pyMod (pyHashStr secret (pyStrOf key)) shard_count

/-- One shard's connection parameters, the value type of
`DATABASE_SHARDS` in `core/settings.py`. -/
structure ShardDesc where
  HOST : String
  PORT : Nat
  DB : String
  USER : String
  PASSWORD : String
deriving DecidableEq

/-- Value of the `"shard_0"` entry of `DATABASE_SHARDS` in
`core/settings.py`. -/
def shard0cfg : ShardDesc :=
  { HOST := "localhost", PORT := 5432, DB := "shard_0",
    USER := "admin", PASSWORD := "pass" }

/-- Value of the `"shard_1"` entry of `DATABASE_SHARDS` in
`core/settings.py`. -/
def shard1cfg : ShardDesc :=
  { HOST := "localhost", PORT := 5432, DB := "shard_1",
    USER := "admin", PASSWORD := "pass" }

/-- Embeds `core/settings.py`, `DATABASE_SHARDS`: a two-entry dict,
modelled as an association list in insertion order, with the two literal
value dicts named `shard0cfg` and `shard1cfg`. -/
def DATABASE_SHARDS : List (String × ShardDesc) :=
  [("shard_0", shard0cfg), ("shard_1", shard1cfg)]

/-- Embeds `core/settings.py`, `SHARD_COUNT = len(DATABASE_SHARDS)`. -/
def SHARD_COUNT : Int := (DATABASE_SHARDS.length : Int)

/-- Embeds `core/shard_router.py`, `route_to_shard(key)`, with the module globals
`DATABASE_SHARDS` and `SHARD_COUNT = len(DATABASE_SHARDS)` abstracted into
the `shards` parameter:
`index = shard_hash(key, SHARD_COUNT); shard_name = f"shard_{index}";
return DATABASE_SHARDS[shard_name]` — a missing dict key raises
`KeyError(shard_name)`, and any error from `shard_hash` propagates. -/
def routeToShard (shards : List (String × ShardDesc)) (secret : Nat × Nat)
    (key : PyValue) : Except PyErr ShardDesc :=
  (shard_hash secret key (shards.length : Int)).bind fun index =>
    let shard_name := "shard_" ++ toString index
    match shards.lookup shard_name with
    | some cfg => .ok cfg
    | none => .error (.keyError shard_name)

/-- Definition `route_to_shard` as the repository runs it, over the configured
registry. -/
def route_to_shard (secret : Nat × Nat) (key : PyValue) : Except PyErr ShardDesc :=
  routeToShard DATABASE_SHARDS secret key

/-- The registry `get(index)` operation as the code performs it
(`core/shard_router.py` lines 11–12): format the index into a `shard_{i}`
name and subscript the `DATABASE_SHARDS` dict, a missing key raising
`KeyError` (the spec's `IndexOutOfRange`). -/
def registry_get (i : Int) : Except PyErr ShardDesc :=
  let shard_name := "shard_" ++ toString i
  match DATABASE_SHARDS.lookup shard_name with
  | some cfg => .ok cfg
  | none => .error (.keyError shard_name)

/-- Placeholder for the `model` argument Django passes to router hooks;
`ShardedRouter` never inspects it. -/
structure DjangoModel where

/-- Embeds `django_app/routers.py`, `ShardedRouter.db_for_read`: take
`hints.get("shard_key")`, return `None` when absent, else the string
`f"shard_{key}"` built verbatim from the raw key. -/
def db_for_read (_model : DjangoModel) (hints : List (String × PyValue)) :
    Option String :=
  match hints.lookup "shard_key" with
  | none => none
  | some key => some ("shard_" ++ pyStrOf key)

/-- Embeds `django_app/routers.py`, `ShardedRouter.db_for_write`: textually the
same body as `db_for_read`. -/
def db_for_write (_model : DjangoModel) (hints : List (String × PyValue)) :
    Option String :=
  match hints.lookup "shard_key" with
  | none => none
  | some key => some ("shard_" ++ pyStrOf key)

/-- Embeds `fastapi_app/main.py`, `create_user(id, name)`: `get_session(id)`
resolves the storage shard through `route_to_shard(id)`
(`fastapi_app/db.py`), and the response reports
`{"stored_in_shard": id % 2}`.  The model returns the shard descriptor the
session was opened on together with the reported indicator. -/
def fastapi_create_user (secret : Nat × Nat) (id : Int) :
    Except PyErr (ShardDesc × Int) :=
  (route_to_shard secret (.int id)).bind fun shard =>
    .ok (shard, Int.fmod id 2)

/-- Embeds `flask_app/app.py`, `create_user()`: the fixed payload
`{"id": 42, "name": "Uman"}` is stored via `get_session(42)` →
`route_to_shard(42)`, and the response reports
`{"status": "ok", "shard": 42 % 2}`. -/
def flask_create_user (secret : Nat × Nat) :
    Except PyErr (ShardDesc × Int) :=
  (route_to_shard secret (.int 42)).bind fun shard =>
    .ok (shard, Int.fmod 42 2)

/-- The mutable module state of `core.settings` as Python sees it: the
`DATABASE_SHARDS` dict object and the `SHARD_COUNT` binding. -/
structure SettingsState where
  database_shards : List (String × ShardDesc)
  shard_count : Int
deriving DecidableEq

/-- Dict subscript read (`shards[name]`) as a state-passing operation:
Python's `dict.__getitem__` reads without mutating, so the state is
returned unchanged. -/
def dictGetSt (st : SettingsState) (name : String) :
    Except PyErr ShardDesc × SettingsState :=
  (match st.database_shards.lookup name with
   | some cfg => .ok cfg
   | none => .error (.keyError name), st)

/-- Embeds `route_to_shard` with the reads of the `core.settings` module state
made explicit, statement by statement: read `SHARD_COUNT`, hash, format
the name, subscript `DATABASE_SHARDS`. -/
def route_to_shardSt (secret : Nat × Nat) (key : PyValue) (st : SettingsState) :
    Except PyErr ShardDesc × SettingsState :=
  let (count, st) := (st.shard_count, st)
  match shard_hash secret key count with
  | .error e => (.error e, st)
  | .ok index =>
    let shard_name := "shard_" ++ toString index
    dictGetSt st shard_name

/-! Helper lemmas.  The decimal-text facts below support the out-of-range
registry lookups: a formatted `shard_{i}` name can only collide with
`shard_0` or `shard_1` when `i` is literally `0` or `1`. -/

theorem toDigitsCore_length_le (b : Nat) :
    ∀ (fuel n : Nat) (ds : List Char),
      ds.length ≤ (Nat.toDigitsCore b fuel n ds).length := by
  intro fuel
  induction fuel with
  | zero => intro n ds; simp [Nat.toDigitsCore]
  | succ fuel ih =>
    intro n ds
    simp only [Nat.toDigitsCore]
    split
    · simp
    · exact le_trans (by simp) (ih (n / b) (Nat.digitChar (n % b) :: ds))

theorem toDigitsCore_length_one_le (b fuel n : Nat) (ds : List Char)
    (h : 0 < fuel) :
    ds.length + 1 ≤ (Nat.toDigitsCore b fuel n ds).length := by
  cases fuel with
  | zero => omega
  | succ fuel =>
    simp only [Nat.toDigitsCore]
    split
    · simp
    · exact toDigitsCore_length_le b fuel (n / b) (Nat.digitChar (n % b) :: ds)

theorem natRepr_length_two_le (n : Nat) (h : 10 ≤ n) :
    2 ≤ (Nat.repr n).length := by
  have hdiv : n / 10 ≠ 0 := by
    have : 1 ≤ n / 10 := (Nat.one_le_div_iff (by decide)).mpr h
    omega
  have hr : Nat.repr n =
      (Nat.toDigitsCore 10 n (n / 10) [Nat.digitChar (n % 10)]).asString := by
    simp only [Nat.repr, Nat.toDigits, Nat.toDigitsCore, hdiv, if_false]
  rw [hr]
  have := toDigitsCore_length_one_le 10 n (n / 10) [Nat.digitChar (n % 10)] (by omega)
  simpa [String.length, List.asString] using this

theorem natRepr_ne01 (n : Nat) (h : 2 ≤ n) :
    Nat.repr n ≠ "0" ∧ Nat.repr n ≠ "1" := by
  by_cases hn : n < 10
  · interval_cases n <;> exact ⟨by decide, by decide⟩
  · have h2 := natRepr_length_two_le n (by omega)
    constructor <;> intro heq <;> rw [heq] at h2 <;> simp [String.length] at h2

theorem int_toString_ne01 (i : Int) (h : i < 0 ∨ 2 ≤ i) :
    toString i ≠ "0" ∧ toString i ≠ "1" := by
  cases i with
  | ofNat n =>
    have hn : 2 ≤ n := by
      rw [Int.ofNat_eq_coe] at h
      rcases h with h | h
      · exact absurd h (Int.natCast_nonneg n).not_lt
      · exact_mod_cast h
    have hts : toString (Int.ofNat n) = Nat.repr n := rfl
    rw [hts]
    exact natRepr_ne01 n hn
  | negSucc m =>
    have hts : toString (Int.negSucc m) = "-" ++ Nat.repr (m + 1) := rfl
    rw [hts]
    constructor <;> intro heq <;>
      · have hd := congrArg String.data heq
        simp [String.data_append] at hd

theorem shardName_injText (i : Int) (t : String)
    (heq : "shard_" ++ toString i = "shard_" ++ t) : toString i = t := by
  have hd := congrArg String.data heq
  rw [String.data_append, String.data_append] at hd
  exact String.ext (List.append_cancel_left hd)

theorem shard_hash_ok_range (secret : Nat × Nat) (key : PyValue) (N : Int)
    (h : 0 < N) : ∃ r, shard_hash secret key N = .ok r ∧ 0 ≤ r ∧ r < N := by
  refine ⟨(pyHashStr secret (pyStrOf key)).fmod N, ?_, ?_, ?_⟩
  · simp [shard_hash, pyMod, h.ne']
  · exact Int.fmod_nonneg' _ h
  · exact Int.fmod_lt_of_pos _ h

/-! Claim theorems. -/

/-- C1 (amended): resolving against an empty registry (`ShardCount = 0`)
fails with the modulo-by-zero arithmetic error (Python's
`ZeroDivisionError`), for every hash secret and key: no zero-shard check
precedes the `hash(str(key)) % shard_count` computation, so the claimed
`ConfigurationError` can never be the outcome. -/
theorem route_empty_registry (secret : Nat × Nat) (key : PyValue) :
    routeToShard [] secret key = .error .zeroDivision ∧
      shard_hash secret key 0 = .error .zeroDivision := by
  constructor
  · simp [routeToShard, shard_hash, pyMod, Except.bind]
  · simp [shard_hash, pyMod]

/-- C1 (counterexample to the claim as stated): with the registry empty,
resolving the key `"k"` (under the `PYTHONHASHSEED=0` secret) does not
fail with `ConfigurationError` — it fails with the arithmetic
`ZeroDivisionError` the claim rules out. -/
theorem route_empty_not_config_error :
    routeToShard [] (secretFromSeed 0) (.str "k") ≠ .error .configurationError ∧
      routeToShard [] (secretFromSeed 0) (.str "k") = .error .zeroDivision := by
  decide

/-- C2: `shard_hash` does depend on the per-process hash seed, contrary to
the claim and to the function's own "deterministic" docstring: key `42`
with `ShardCount = 2` resolves to index 1 under `PYTHONHASHSEED=0` but to
index 0 under `PYTHONHASHSEED=1`, so `route_to_shard` returns different
shard descriptors in the two processes. -/
theorem shard_hash_seed_dependent :
    shard_hash (secretFromSeed 0) (.int 42) 2 = .ok 1 ∧
      shard_hash (secretFromSeed 1) (.int 42) 2 = .ok 0 ∧
      route_to_shard (secretFromSeed 0) (.int 42) = .ok shard1cfg ∧
      route_to_shard (secretFromSeed 1) (.int 42) = .ok shard0cfg ∧
      shard_hash (secretFromSeed 0) (.int 42) 2 ≠
        shard_hash (secretFromSeed 1) (.int 42) 2 := by
  decide

/-- C3: for every hash secret, key and shard count `N > 0`, `shard_hash`
succeeds with an index in `[0, N)` — Python's `%` takes the sign of the
positive divisor, so negative hash values still land in range. -/
theorem shard_hash_range_bound (secret : Nat × Nat) (key : PyValue) (N : Int)
    (h : 0 < N) : ∃ r, shard_hash secret key N = .ok r ∧ 0 ≤ r ∧ r < N :=
  shard_hash_ok_range secret key N h

/-- C3 (witness): the range bound instantiated at the spec's example key
`"7"` with two shards, under the `PYTHONHASHSEED=0` secret. -/
theorem shard_hash_range_bound_witness :
    (0 : Int) < 2 ∧
      ∃ r, shard_hash (secretFromSeed 0) (.str "7") 2 = .ok r ∧ 0 ≤ r ∧ r < 2 :=
  ⟨by decide, shard_hash_range_bound (secretFromSeed 0) (.str "7") 2 (by decide)⟩

/-- C4: keys with the same canonical text hash and route identically, for
every hash secret and shard count — `shard_hash` only ever sees
`str(key)`. -/
theorem shard_hash_text_stable (secret : Nat × Nat) (k1 k2 : PyValue)
    (h : pyStrOf k1 = pyStrOf k2) :
    (∀ N, shard_hash secret k1 N = shard_hash secret k2 N) ∧
      route_to_shard secret k1 = route_to_shard secret k2 := by
  constructor
  · intro N; simp [shard_hash, h]
  · simp [route_to_shard, routeToShard, shard_hash, h]

/-- C4 (witness): the integer key `42` and the string key `"42"` have
the same canonical text, the same shard index for `ShardCount = 2`, and
the identical `route_to_shard` descriptor (secret of `PYTHONHASHSEED=0`). -/
theorem shard_hash_text_stable_witness :
    pyStrOf (.int 42) = pyStrOf (.str "42") ∧
      shard_hash (secretFromSeed 0) (.int 42) 2 =
        shard_hash (secretFromSeed 0) (.str "42") 2 ∧
      route_to_shard (secretFromSeed 0) (.int 42) =
        route_to_shard (secretFromSeed 0) (.str "42") :=
  ⟨by decide,
   (shard_hash_text_stable (secretFromSeed 0) (.int 42) (.str "42") (by decide)).1 2,
   (shard_hash_text_stable (secretFromSeed 0) (.int 42) (.str "42") (by decide)).2⟩

/-- C5: for every hash secret and key, `route_to_shard` computes the index
`shard_hash(key, SHARD_COUNT)`, looks up the `shard_{index}` entry of
`DATABASE_SHARDS`, and returns exactly that descriptor. -/
theorem route_to_shard_follows_algo (secret : Nat × Nat) (key : PyValue) :
    ∃ i cfg, shard_hash secret key SHARD_COUNT = .ok i ∧
      DATABASE_SHARDS.lookup ("shard_" ++ toString i) = some cfg ∧
      route_to_shard secret key = .ok cfg := by
  obtain ⟨i, hok, hge, hlt⟩ := shard_hash_ok_range secret key SHARD_COUNT (by decide)
  have hsc : SHARD_COUNT = 2 := rfl
  rw [hsc] at hlt
  have hroute : route_to_shard secret key =
      (shard_hash secret key SHARD_COUNT).bind fun index =>
        match DATABASE_SHARDS.lookup ("shard_" ++ toString index) with
        | some cfg => .ok cfg
        | none => .error (.keyError ("shard_" ++ toString index)) := rfl
  rcases (by omega : i = 0 ∨ i = 1) with rfl | rfl
  · refine ⟨0, shard0cfg, hok, by decide, ?_⟩
    rw [hroute, hok]; decide
  · refine ⟨1, shard1cfg, hok, by decide, ?_⟩
    rw [hroute, hok]; decide

/-- C6: the `stored_in_shard` indicator of the FastAPI endpoint (and the
`shard` field of the Flask endpoint), computed as `id % 2`, disagrees with
the hash-based resolver that actually picked the storage shard: for
`id = 42` (the Flask payload) under the `PYTHONHASHSEED=0` secret, the
user is stored via shard index 1 (`shard_1`'s descriptor) while both
endpoints report shard `42 % 2 = 0`. -/
theorem stored_in_shard_mismatch :
    fastapi_create_user (secretFromSeed 0) 42 = .ok (shard1cfg, 0) ∧
      flask_create_user (secretFromSeed 0) = .ok (shard1cfg, 0) ∧
      shard_hash (secretFromSeed 0) (.int 42) SHARD_COUNT = .ok 1 ∧
      route_to_shard (secretFromSeed 0) (.int 42) = .ok shard1cfg ∧
      Int.fmod 42 2 = 0 ∧ (1 : Int) ≠ 0 := by
  decide

/-- C7: under the contiguity invariant — a nonempty registry holding a
`shard_{i}` entry for every `i` below its size — resolution never reaches
the lookup-failure branch: `routeToShard` returns a descriptor for every
hash secret and key. -/
theorem routeToShard_total (shards : List (String × ShardDesc))
    (secret : Nat × Nat) (key : PyValue)
    (hpos : 0 < shards.length)
    (hcontig : ∀ i : Nat, i < shards.length →
      (shards.lookup ("shard_" ++ toString (i : Int))).isSome = true) :
    ∃ cfg, routeToShard shards secret key = .ok cfg := by
  obtain ⟨r, hok, hge, hlt⟩ :=
    shard_hash_ok_range secret key (shards.length : Int) (by exact_mod_cast hpos)
  have hi : r.toNat < shards.length := by omega
  have hcast : ((r.toNat : Int)) = r := Int.toNat_of_nonneg hge
  have hsome := hcontig r.toNat hi
  rw [hcast] at hsome
  obtain ⟨cfg, hcfg⟩ := Option.isSome_iff_exists.mp hsome
  refine ⟨cfg, ?_⟩
  simp only [routeToShard]
  rw [hok]
  show (match shards.lookup ("shard_" ++ toString r) with
    | some cfg => Except.ok cfg
    | none => Except.error (PyErr.keyError ("shard_" ++ toString r))) = Except.ok cfg
  rw [hcfg]

/-- C7 (witness): the configured registry (`shard_0`, `shard_1`) is
nonempty and contiguous, so routing the key `7` returns a descriptor. -/
theorem routeToShard_total_witness :
    0 < DATABASE_SHARDS.length ∧
      (∀ i : Nat, i < DATABASE_SHARDS.length →
        (DATABASE_SHARDS.lookup ("shard_" ++ toString (i : Int))).isSome = true) ∧
      ∃ cfg, routeToShard DATABASE_SHARDS (secretFromSeed 0) (.int 7) = .ok cfg :=
  ⟨by decide, by decide,
   routeToShard_total DATABASE_SHARDS (secretFromSeed 0) (.int 7)
     (by decide) (by decide)⟩

/-- C8: looking an out-of-range index up in the configured registry
(`i < 0` or `i ≥ SHARD_COUNT = 2`) fails with the lookup error (Python's
`KeyError` on the formatted `shard_{i}` name — the spec's
`IndexOutOfRange`). -/
theorem registry_get_oor (i : Int) (h : i < 0 ∨ 2 ≤ i) :
    registry_get i = .error (.keyError ("shard_" ++ toString i)) := by
  obtain ⟨h0, h1⟩ := int_toString_ne01 i h
  have k0 : ("shard_" ++ toString i) ≠ "shard_0" := fun heq =>
    h0 (shardName_injText i "0" (heq.trans (by decide)))
  have k1 : ("shard_" ++ toString i) ≠ "shard_1" := fun heq =>
    h1 (shardName_injText i "1" (heq.trans (by decide)))
  simp [registry_get, DATABASE_SHARDS, List.lookup,
    beq_eq_false_iff_ne.mpr k0, beq_eq_false_iff_ne.mpr k1]

/-- C8 (witness): the spec's example — with shards loaded at indices 0 and
1, `get(2)` fails with the lookup error for `shard_2`. -/
theorem registry_get_oor_witness :
    ((2 : Int) < 0 ∨ 2 ≤ (2 : Int)) ∧
      registry_get 2 = .error (.keyError "shard_2") :=
  ⟨Or.inr (by decide),
   (registry_get_oor 2 (Or.inr (by decide))).trans (by decide)⟩

/-- C9: `route_to_shard` leaves the `core.settings` module state —
the `DATABASE_SHARDS` registry and `SHARD_COUNT` — exactly as it found it,
for every hash secret, key and starting state: its dict access is a pure
read. -/
theorem route_to_shardSt_frame (secret : Nat × Nat) (key : PyValue)
    (st : SettingsState) : (route_to_shardSt secret key st).2 = st := by
  simp only [route_to_shardSt, dictGetSt]
  split <;> rfl

/-- C10: the Django `ShardedRouter` routes reads and writes identically,
and both hooks return `none` exactly when the hints carry no
`"shard_key"`, else the string `shard_{key}` formatted verbatim from the
raw key — no hashing, no modulo. -/
theorem django_read_write (m : DjangoModel) (hints : List (String × PyValue)) :
    db_for_read m hints = db_for_write m hints ∧
      db_for_read m hints =
        (hints.lookup "shard_key").map (fun k => "shard_" ++ pyStrOf k) := by
  refine ⟨rfl, ?_⟩
  simp only [db_for_read]
  cases hints.lookup "shard_key" <;> rfl
